import Mathlib

/-!
Verification of the s3_janitor repository: a shallow embedding of its Go
source (a CLI that lists S3 multipart uploads and aborts them) together
with theorems settling the specification claims against that embedding.

The provider (S3) is modelled explicitly: a bucket holds a paged listing
of multipart uploads, and the network outcomes of the listing and abort
calls are supplied by an environment record, so that the embedded
functions are pure and the call trace they issue is observable.
-/

namespace S3Janitor

/-- A multipart upload descriptor as returned by the provider listing:
object key, upload id, and the initiation timestamp (seconds). The Go
code reads only Key and UploadId; Initiated is carried so that age-based
claims can be stated. -/
structure Upload where
  key : String
  uploadId : String
  initiated : Int
deriving DecidableEq, Repr

/-- Kinds of provider errors relevant to the claims: not-found,
access-denied, a transient fault (timeout or throttling), or any other
error carrying a message. -/
inductive S3Error
| notFound
| accessDenied
| transient
| other (msg : String)
deriving DecidableEq, Repr

/-- One AbortMultipartUpload request issued by the code, recording the
bucket, key and upload id arguments it was called with. -/
structure AbortCall where
  bucket : String
  key : String
  uploadId : String
deriving DecidableEq, Repr

/-- Network environment: the outcome of each provider call. `none`
means the call succeeds, `some e` that it fails with error `e`.
`listUploadsErr` is the outcome of ListMultipartUploads for a bucket,
`abortErr` the outcome of AbortMultipartUpload for a given upload in a
given bucket, and `listBucketsErr` the outcome of ListBuckets. -/
structure S3Env where
  listUploadsErr : String → Option S3Error
  abortErr : String → Upload → Option S3Error
  listBucketsErr : Option S3Error

/-- The provider returns the listing in bounded pages; the Go code calls
ListMultipartUploads once with no marker, so it receives exactly the
first page (an empty listing when the bucket has none). -/
def firstPage (pages : List (List Upload)) : List Upload :=
  pages.headD []

/-- The abort loop of AbortFailedMultipartUploadsInBucket (part_001
lines 101-111): for each upload in the received listing, issue an abort
call; on the first error, return it immediately (a formatted error in
Go), abandoning the remaining uploads. Returns the trace of abort calls
issued and the error result. -/
def abortLoop (env : S3Env) (bucketName : String) :
    List Upload → List AbortCall × Option S3Error
  | [] => ([], none)
  | u :: rest =>
    match env.abortErr bucketName u with
    | some e => ([⟨bucketName, u.key, u.uploadId⟩], some e)
    | none =>
      let r := abortLoop env bucketName rest
      (⟨bucketName, u.key, u.uploadId⟩ :: r.1, r.2)

/-- AbortFailedMultipartUploadsInBucket (part_001 lines 88-114): list
the in-progress multipart uploads of the bucket (one ListMultipartUploads
call, hence one page), then abort each one, stopping at the first error.
The result is the trace of abort calls issued and the returned error
(`none` = nil error). -/
def AbortFailedMultipartUploadsInBucket (env : S3Env) (bucketName : String)
    (pages : List (List Upload)) : List AbortCall × Option S3Error :=
  match env.listUploadsErr bucketName with
  | some e => ([], some e)
  | none => abortLoop env bucketName (firstPage pages)

/-- The per-bucket loop of AbortFailedMultipartUploadsInAllBuckets
(part_001 lines 74-79): process each bucket in order; if a bucket
returns an error, return it immediately, abandoning the remaining
buckets. -/
def allBucketsLoop (env : S3Env) :
    List (String × List (List Upload)) → List AbortCall × Option S3Error
  | [] => ([], none)
  | (name, pages) :: rest =>
    let r := AbortFailedMultipartUploadsInBucket env name pages
    match r.2 with
    | some e => (r.1, some e)
    | none =>
      let r2 := allBucketsLoop env rest
      (r.1 ++ r2.1, r2.2)

/-- AbortFailedMultipartUploadsInAllBuckets (part_001 lines 64-82): list
the buckets of the account, then run the per-bucket function over each in
order, returning on the first failure. -/
def AbortFailedMultipartUploadsInAllBuckets (env : S3Env)
    (account : List (String × List (List Upload))) :
    List AbortCall × Option S3Error :=
  match env.listBucketsErr with
  | some e => ([], some e)
  | none => allBucketsLoop env account

/-- The uploads of a run that were successfully aborted: the longest
initial segment of the received listing on which every abort call
succeeds (the loop stops at the first error, and nothing is aborted at
all when the listing call fails). -/
def succeededAborts (env : S3Env) (bucketName : String)
    (pages : List (List Upload)) : List Upload :=
  match env.listUploadsErr bucketName with
  | some _ => []
  | none =>
    (firstPage pages).takeWhile (fun u => (env.abortErr bucketName u).isNone)

/-- Provider-state transition between two runs: S3 removes a multipart
upload from the bucket once its abort call succeeds, so the listing a
second run receives is the previous state with the successfully aborted
uploads removed. -/
def stateAfterRun (env : S3Env) (bucketName : String)
    (pages : List (List Upload)) : List (List Upload) :=
  pages.map (fun pg =>
    pg.filter (fun u => decide (u ∉ succeededAborts env bucketName pages)))

/-- A network environment in which every provider call succeeds. -/
def envAllOk : S3Env :=
  { listUploadsErr := fun _ => none
    abortErr := fun _ _ => none
    listBucketsErr := none }

/-! ### CLI entry guard (part_000, `main`, lines 225-235) -/

/-- The default value of the global `profileFlag` variable: the empty
string, set in `init` (part_000 line 24) and unchanged unless the
command line supplies `--profile`. -/
def profileFlagDefault : String := ""

/-- The condition under which `main` rejects the invocation (part_000
line 226): the argument vector (program name at index 0) has at least
two entries and the entry at index 1 is exactly `--profile` or `-p`. -/
def profileAloneGuard (argv : List String) : Bool :=
  decide (2 ≤ argv.length) && (argv.getD 1 "" == "--profile" || argv.getD 1 "" == "-p")

/-- What `main` does: either it prints the flag-cannot-be-used-alone
error and returns before `rootCmd.Execute` runs, or it executes the
root command. -/
inductive MainOutcome
| rejectedProfileAlone
| executedRootCommand
deriving DecidableEq, Repr

/-- main (part_000 lines 225-235) as a function of the argument
vector: the guard decides whether the root command is executed. -/
def main (argv : List String) : MainOutcome :=
  if profileAloneGuard argv then MainOutcome.rejectedProfileAlone
  else MainOutcome.executedRootCommand

/-! ### Menu branch "Select the profile and bucket to expire"
(part_000, `menu`, lines 114-150) -/

/-- The collaborator calls the menu branch issues, with the profile (or
bucket) argument each call was given. `abortInBucket` records the
profile whose credentials built the session used for the abort, and the
bucket. -/
inductive MenuCall
| getProfileChoice
| getCredentialsForProfile (profile : String)
| createSessionWithCredentials (profile : String)
| getBucketChoice (profile : String)
| abortInBucket (sessionProfile : String) (bucket : String)
deriving DecidableEq, Repr

/-- Outcomes of the interactive prompts and collaborator calls the menu
branch makes: the profile the user picks, whether fetching credentials
or building a session for a profile fails, the bucket the user picks
under a profile, and the abort outcome. -/
structure MenuEnv where
  profileChoice : Except String String
  credentialsResult : String → Except String Unit
  sessionResult : String → Except String Unit
  bucketChoice : String → Except String String
  abortResult : String → String → Option String

/-- The branch body (part_000 lines 114-150), as the trace of
collaborator calls it issues, given the current value of the global
`profileFlag`. Faithful to the source: the user-selected profile is
passed to GetBucketChoice (line 136), while GetCredentialsForProfile
(line 123) and CreateAWSSessionWithCredentials (line 129) are passed
the global `profileFlag`. -/
def menuExpireOneBranch (profileFlag : String) (env : MenuEnv) : List MenuCall :=
  MenuCall.getProfileChoice ::
  match env.profileChoice with
  | Except.error _ => []
  | Except.ok profile =>
    MenuCall.getCredentialsForProfile profileFlag ::
    match env.credentialsResult profileFlag with
    | Except.error _ => []
    | Except.ok _ =>
      MenuCall.createSessionWithCredentials profileFlag ::
      match env.sessionResult profileFlag with
      | Except.error _ => []
      | Except.ok _ =>
        MenuCall.getBucketChoice profile ::
        match env.bucketChoice profile with
        | Except.error _ => []
        | Except.ok bucket => [MenuCall.abortInBucket profileFlag bucket]

/-! ### ListS3Buckets (part_001, lines 45-59) -/

/-- A bucket entry of the ListBuckets response: the Name field is a
string pointer in Go, so it may be nil. -/
structure S3BucketEntry where
  name : Option String
deriving DecidableEq, Repr

/-- The ListBuckets response body. -/
structure ListBucketsOutput where
  buckets : List S3BucketEntry
deriving DecidableEq, Repr

/-- The loop of ListS3Buckets (part_001 lines 53-56): write the
dereferenced name of each entry, in order. Dereferencing a nil name
pointer is a runtime panic, modelled as `none`; the panic fires at the
first nil entry, so the result is `none` exactly when some entry has a
nil name. -/
def derefBucketNames : List S3BucketEntry → Option (List String)
  | [] => some []
  | e :: rest =>
    match e.name with
    | none => none
    | some n => (derefBucketNames rest).map (fun ns => n :: ns)

/-- ListS3Buckets (part_001 lines 45-59): propagate a provider error,
else build the list of bucket names from the response. `Except.ok none`
marks the run that panics on a nil name pointer. -/
def ListS3Buckets (listCall : Except S3Error ListBucketsOutput) :
    Except S3Error (Option (List String)) :=
  match listCall with
  | Except.error e => Except.error e
  | Except.ok out => Except.ok (derefBucketNames out.buckets)

/-! ### Concrete fixtures used by counterexamples and witnesses -/

/-- A fixed current time (seconds) for the age scenarios. -/
def nowFixture : Int := 200000

/-- An upload initiated the given number of hours before `nowFixture`. -/
def uploadAged (hoursAgo : Int) : Upload :=
  ⟨"logs/build.part", "upload-aged", nowFixture - hoursAgo * 3600⟩

/-- Two distinct uploads. -/
def upA : Upload := ⟨"keys/a", "uid-a", 1000⟩

/-- Second fixture upload. -/
def upB : Upload := ⟨"keys/b", "uid-b", 2000⟩

/-- Environment whose ListMultipartUploads call is denied on bucket-a
and succeeds elsewhere; aborts all succeed. -/
def envListDenyA : S3Env :=
  { listUploadsErr := fun b => if b == "bucket-a" then some S3Error.accessDenied else none
    abortErr := fun _ _ => none
    listBucketsErr := none }

/-- Environment in which every abort call reports not-found. -/
def envAbortNotFound : S3Env :=
  { listUploadsErr := fun _ => none
    abortErr := fun _ _ => some S3Error.notFound
    listBucketsErr := none }

/-- Environment in which every abort call fails transiently. -/
def envAbortTransientAll : S3Env :=
  { listUploadsErr := fun _ => none
    abortErr := fun _ _ => some S3Error.transient
    listBucketsErr := none }

/-- Environment in which the abort of uid-a is denied and every other
call succeeds. -/
def envAbortDenyA : S3Env :=
  { listUploadsErr := fun _ => none
    abortErr := fun _ u => if u.uploadId == "uid-a" then some S3Error.accessDenied else none
    listBucketsErr := none }

/-- Environment for a first run in which the abort of uid-b fails
transiently and every other call succeeds. -/
def envFirstRunW : S3Env :=
  { listUploadsErr := fun _ => none
    abortErr := fun _ u => if u.uploadId == "uid-b" then some S3Error.transient else none
    listBucketsErr := none }

/-! ## Helper lemmas -/

/-- When every abort call succeeds, the abort loop issues one call per
upload, in listing order, and returns no error. -/
theorem abortLoop_all_ok (env : S3Env) (b : String) (l : List Upload)
    (h : ∀ u ∈ l, env.abortErr b u = none) :
    abortLoop env b l = (l.map (fun u => ⟨b, u.key, u.uploadId⟩), none) := by
  induction l with
  | nil => rfl
  | cons u rest ih =>
    have hu : env.abortErr b u = none := h u (List.mem_cons_self u rest)
    have hr := ih (fun v hv => h v (List.mem_cons_of_mem u hv))
    simp [abortLoop, hu, hr]

/-- Every call the abort loop issues is for an upload of its input
list, with the bucket and the fields of that upload. -/
theorem abortLoop_calls_from (env : S3Env) (b : String) (l : List Upload)
    (c : AbortCall) (hc : c ∈ (abortLoop env b l).1) :
    ∃ v ∈ l, c = ⟨b, v.key, v.uploadId⟩ := by
  induction l with
  | nil => simp [abortLoop] at hc
  | cons u rest ih =>
    cases h : env.abortErr b u with
    | some e =>
      simp [abortLoop, h] at hc
      exact ⟨u, List.mem_cons_self u rest, hc⟩
    | none =>
      simp [abortLoop, h] at hc
      rcases hc with hc | hc
      · exact ⟨u, List.mem_cons_self u rest, hc⟩
      · obtain ⟨v, hv, hcv⟩ := ih hc
        exact ⟨v, List.mem_cons_of_mem u hv, hcv⟩

/-- Every call AbortFailedMultipartUploadsInBucket issues is for an
upload of the first page of the listing. -/
theorem abortBucket_calls_from (env : S3Env) (b : String)
    (pages : List (List Upload)) (c : AbortCall)
    (hc : c ∈ (AbortFailedMultipartUploadsInBucket env b pages).1) :
    ∃ v ∈ firstPage pages, c = ⟨b, v.key, v.uploadId⟩ := by
  unfold AbortFailedMultipartUploadsInBucket at hc
  cases h : env.listUploadsErr b with
  | some e => rw [h] at hc; simp at hc
  | none => rw [h] at hc; exact abortLoop_calls_from env b _ c hc

/-- The successfully aborted uploads of a run come from the first page
of the listing it received. -/
theorem succeededAborts_subset (env : S3Env) (b : String)
    (pages : List (List Upload)) :
    ∀ u ∈ succeededAborts env b pages, u ∈ firstPage pages := by
  intro u hu
  unfold succeededAborts at hu
  cases h : env.listUploadsErr b with
  | some e => rw [h] at hu; simp at hu
  | none => rw [h] at hu; exact List.takeWhile_subset _ hu

/-! ## C1 — age-based eligibility -/

/-- C1 counterexample: the upload was initiated 23 hours before
`nowFixture`, strictly newer than the 24-hour threshold, so the claim
requires Decision=Keep and no abort; the code nevertheless issues the
abort call for it (it never reads the initiation timestamp). -/
theorem c1_young_upload_aborted :
    nowFixture - 24 * 3600 < (uploadAged 23).initiated ∧
    (AbortFailedMultipartUploadsInBucket envAllOk "bucket-a" [[uploadAged 23]]).1 =
      [⟨"bucket-a", (uploadAged 23).key, (uploadAged 23).uploadId⟩] := by
  constructor
  · decide
  · rfl

/-- C1 (amended): the code applies no age policy at all — when the
listing call succeeds and the abort calls succeed, every upload of the
received listing is aborted regardless of its initiation timestamp (so
a 24-hour-old upload is indeed aborted, but so is a 23-hour-old one). -/
theorem abortBucket_aborts_regardless_of_age
    (env : S3Env) (b : String) (pages : List (List Upload)) (u : Upload)
    (hl : env.listUploadsErr b = none)
    (hok : ∀ v ∈ firstPage pages, env.abortErr b v = none)
    (hu : u ∈ firstPage pages) :
    (⟨b, u.key, u.uploadId⟩ : AbortCall) ∈
      (AbortFailedMultipartUploadsInBucket env b pages).1 := by
  have h := abortLoop_all_ok env b (firstPage pages) hok
  simp only [AbortFailedMultipartUploadsInBucket, hl, h]
  exact List.mem_map_of_mem _ hu

/-- C1 witness: the amended theorem applied to the 23-hour-old upload
in an all-success environment. -/
theorem abortBucket_aborts_regardless_of_age_witness :
    (⟨"bucket-a", (uploadAged 23).key, (uploadAged 23).uploadId⟩ : AbortCall) ∈
      (AbortFailedMultipartUploadsInBucket envAllOk "bucket-a" [[uploadAged 23]]).1 :=
  abortBucket_aborts_regardless_of_age envAllOk "bucket-a" [[uploadAged 23]]
    (uploadAged 23) rfl (by decide) (by decide)

/-! ## C2 — per-bucket failure isolation -/

/-- C2 counterexample: the listing of bucket-a is denied while bucket-b
holds an upload whose abort would succeed; the claim requires bucket-b
to still be processed, but the run returns the bucket-a error having
issued no abort call at all — bucket-b is never touched. -/
theorem c2_failure_not_isolated :
    AbortFailedMultipartUploadsInAllBuckets envListDenyA
        [("bucket-a", [[]]), ("bucket-b", [[upB]])] =
      ([], some S3Error.accessDenied) := by
  rfl

/-- C2 (amended): a bucket failure stops the whole run —
AbortFailedMultipartUploadsInAllBuckets returns the first failing
bucket error immediately, and the buckets after the failing one are
never processed (the result does not depend on them). -/
theorem allBuckets_stops_at_first_failure (env : S3Env) (name : String)
    (pages : List (List Upload)) (rest : List (String × List (List Upload)))
    (e : S3Error)
    (hb : env.listBucketsErr = none)
    (hfail : (AbortFailedMultipartUploadsInBucket env name pages).2 = some e) :
    AbortFailedMultipartUploadsInAllBuckets env ((name, pages) :: rest) =
      ((AbortFailedMultipartUploadsInBucket env name pages).1, some e) := by
  simp only [AbortFailedMultipartUploadsInAllBuckets, hb, allBucketsLoop, hfail]

/-- C2 witness: the amended theorem applied to the denied bucket-a
followed by an unprocessed bucket-b. -/
theorem allBuckets_stops_at_first_failure_witness :
    AbortFailedMultipartUploadsInAllBuckets envListDenyA
        [("bucket-a", [[upA]]), ("bucket-b", [[upB]])] =
      ([], some S3Error.accessDenied) := by
  have h := allBuckets_stops_at_first_failure envListDenyA "bucket-a" [[upA]]
    [("bucket-b", [[upB]])] S3Error.accessDenied rfl (by decide)
  simpa using h

/-! ## C3 — pagination transparency -/

/-- C3 counterexample: two uploads spread over two provider pages
(N = 2, K = 2); the claim requires the listing step to yield all two
descriptors, but the run processes exactly one — the second page is
never fetched and upB is never aborted. -/
theorem c3_second_page_never_fetched :
    ([[upA], [upB]] : List (List Upload)).flatten.length = 2 ∧
    (AbortFailedMultipartUploadsInBucket envAllOk "bucket-a" [[upA], [upB]]).1.length = 1 ∧
    (⟨"bucket-a", upB.key, upB.uploadId⟩ : AbortCall) ∉
      (AbortFailedMultipartUploadsInBucket envAllOk "bucket-a" [[upA], [upB]]).1 := by
  refine ⟨rfl, rfl, ?_⟩
  decide

/-- C3 (amended): the listing step is a single ListMultipartUploads
call with no continuation and no resume token — the run over any paged
listing equals the run over its first page alone; every page after the
first is ignored. -/
theorem abortBucket_reads_only_first_page (env : S3Env) (b : String)
    (p : List Upload) (rest : List (List Upload)) :
    AbortFailedMultipartUploadsInBucket env b (p :: rest) =
      AbortFailedMultipartUploadsInBucket env b [p] := rfl

/-! ## C4 — abort error taxonomy -/

/-- C4 counterexample: the abort of upA reports not-found; the claim
requires Outcome=Success with an already-gone annotation, but the run
issues exactly one attempt and returns the not-found error as a
failure. -/
theorem c4_not_found_is_a_failure :
    AbortFailedMultipartUploadsInBucket envAbortNotFound "bucket-a" [[upA]] =
      ([⟨"bucket-a", "keys/a", "uid-a"⟩], some S3Error.notFound) := by
  rfl

/-- C4 (amended): the code has no error taxonomy — whatever error an
abort call reports (not-found, access-denied or a transient fault
alike), the run makes exactly one attempt, returns that error as its
failure result, and abandons the remaining uploads; nothing is retried
and not-found is not converted to success. -/
theorem abortBucket_returns_first_abort_error (env : S3Env) (b : String)
    (u : Upload) (rest : List Upload) (more : List (List Upload)) (e : S3Error)
    (hl : env.listUploadsErr b = none)
    (he : env.abortErr b u = some e) :
    AbortFailedMultipartUploadsInBucket env b ((u :: rest) :: more) =
      ([⟨b, u.key, u.uploadId⟩], some e) := by
  simp only [AbortFailedMultipartUploadsInBucket, hl, firstPage, List.headD_cons,
    abortLoop, he]

/-- C4 witness: the amended theorem applied to a transiently failing
abort of upA with upB still pending behind it. -/
theorem abortBucket_returns_first_abort_error_witness :
    AbortFailedMultipartUploadsInBucket envAbortTransientAll "bucket-a" [[upA, upB]] =
      ([⟨"bucket-a", "keys/a", "uid-a"⟩], some S3Error.transient) :=
  abortBucket_returns_first_abort_error envAbortTransientAll "bucket-a"
    upA [upB] [] S3Error.transient rfl rfl

/-! ## C5 — exactly-once accounting -/

/-- C5 counterexample: the listing yields upA and upB; the abort of upA
is denied, so the run returns at once — upB is silently dropped with no
abort call and no recorded outcome, and no report of any kind is
produced, where the claim requires upB to appear with exactly one
terminal outcome. -/
theorem c5_descriptor_dropped_after_failure :
    AbortFailedMultipartUploadsInBucket envAbortDenyA "bucket-a" [[upA, upB]] =
      ([⟨"bucket-a", "keys/a", "uid-a"⟩], some S3Error.accessDenied) ∧
    (⟨"bucket-a", "keys/b", "uid-b"⟩ : AbortCall) ∉
      (AbortFailedMultipartUploadsInBucket envAbortDenyA "bucket-a" [[upA, upB]]).1 := by
  refine ⟨rfl, ?_⟩
  decide

/-- C5 (amended): only on a fully successful run is the accounting
exact — when the listing call succeeds, every abort succeeds and the
upload ids of the received listing are distinct, each listed upload
receives exactly one abort call (none dropped, none double-aborted);
on the first abort failure the remaining descriptors are dropped with
no outcome, and the code builds no report. -/
theorem abortBucket_success_exactly_once (env : S3Env) (b : String)
    (pages : List (List Upload)) (u : Upload)
    (hl : env.listUploadsErr b = none)
    (hok : ∀ v ∈ firstPage pages, env.abortErr b v = none)
    (hnd : ((firstPage pages).map Upload.uploadId).Nodup)
    (hu : u ∈ firstPage pages) :
    (AbortFailedMultipartUploadsInBucket env b pages).1.count
      ⟨b, u.key, u.uploadId⟩ = 1 := by
  have h := abortLoop_all_ok env b (firstPage pages) hok
  have hmapnd :
      ((firstPage pages).map
        (fun v => (⟨b, v.key, v.uploadId⟩ : AbortCall))).Nodup := by
    apply List.Nodup.of_map AbortCall.uploadId
    rw [List.map_map]
    exact hnd
  simp only [AbortFailedMultipartUploadsInBucket, hl, h]
  exact List.count_eq_one_of_mem hmapnd (List.mem_map_of_mem _ hu)

/-- C5 witness: the amended theorem applied to the two-upload listing
in the all-success environment, counting the abort call for upA. -/
theorem abortBucket_success_exactly_once_witness :
    (AbortFailedMultipartUploadsInBucket envAllOk "bucket-a" [[upA, upB]]).1.count
      ⟨"bucket-a", upA.key, upA.uploadId⟩ = 1 :=
  abortBucket_success_exactly_once envAllOk "bucket-a" [[upA, upB]] upA
    rfl (by decide) (by decide) (by decide)

/-! ## C6 — idempotence across two runs -/

/-- C6 counterexample: the first run attempts the abort of upA and
fails transiently, leaving upA in the bucket; the second run attempts
the abort again and the provider reports not-found — the claim requires
that second-attempt not-found to be recorded as Success, but the code
returns it as an error (a failure). -/
theorem c6_second_attempt_not_found_failed :
    AbortFailedMultipartUploadsInBucket envAbortNotFound "bucket-a"
        (stateAfterRun envAbortTransientAll "bucket-a" [[upA]]) =
      ([⟨"bucket-a", "keys/a", "uid-a"⟩], some S3Error.notFound) := by
  rfl

/-- C6 (amended): the no-double-abort half of the claim holds — since
the provider removes a successfully aborted upload from the listing,
a second run against the resulting bucket state (upload ids distinct,
no new uploads created) never issues an abort call carrying the upload
id of an upload the first run successfully aborted; but a not-found on
a second abort attempt is returned as a failure, not recorded as
Success. -/
theorem reaperTwice_no_second_abort (env1 env2 : S3Env) (b : String)
    (pages : List (List Upload))
    (hnd : (pages.flatten.map Upload.uploadId).Nodup)
    (u : Upload) (hu : u ∈ succeededAborts env1 b pages)
    (c : AbortCall)
    (hc : c ∈ (AbortFailedMultipartUploadsInBucket env2 b (stateAfterRun env1 b pages)).1) :
    c.uploadId ≠ u.uploadId := by
  obtain ⟨v, hv, hcv⟩ := abortBucket_calls_from env2 b _ c hc
  cases pages with
  | nil => simp [stateAfterRun, firstPage] at hv
  | cons p0 rest =>
    have hv2 : v ∈ p0.filter
        (fun w => decide (w ∉ succeededAborts env1 b (p0 :: rest))) := by
      simpa [stateAfterRun, firstPage] using hv
    have hvp0 : v ∈ p0 := (List.mem_filter.mp hv2).1
    have hvnot : v ∉ succeededAborts env1 b (p0 :: rest) :=
      of_decide_eq_true (List.mem_filter.mp hv2).2
    have hup0 : u ∈ p0 := succeededAborts_subset env1 b (p0 :: rest) u hu
    have hvj : v ∈ (p0 :: rest).flatten :=
      List.mem_flatten.mpr ⟨p0, List.mem_cons_self p0 rest, hvp0⟩
    have huj : u ∈ (p0 :: rest).flatten :=
      List.mem_flatten.mpr ⟨p0, List.mem_cons_self p0 rest, hup0⟩
    intro heq
    have hveq : v.uploadId = u.uploadId := by
      rw [hcv] at heq
      exact heq
    have hvu : v = u := List.inj_on_of_nodup_map hnd hvj huj hveq
    exact hvnot (hvu ▸ hu)

/-- C6 witness: first run on a two-upload bucket succeeds on upA and
fails transiently on upB, so upA is removed from the bucket state; the
second run, in an all-success environment, issues a call for upB and
that call does not carry the already-aborted uid-a. -/
theorem reaperTwice_no_second_abort_witness :
    upA ∈ succeededAborts envFirstRunW "bucket-a" [[upA, upB]] ∧
    (⟨"bucket-a", "keys/b", "uid-b"⟩ : AbortCall) ∈
      (AbortFailedMultipartUploadsInBucket envAllOk "bucket-a"
        (stateAfterRun envFirstRunW "bucket-a" [[upA, upB]])).1 ∧
    (⟨"bucket-a", "keys/b", "uid-b"⟩ : AbortCall).uploadId ≠ upA.uploadId :=
  ⟨by decide, by decide,
    reaperTwice_no_second_abort envFirstRunW envAllOk "bucket-a" [[upA, upB]]
      (by decide) upA (by decide) ⟨"bucket-a", "keys/b", "uid-b"⟩ (by decide)⟩

/-! ## C8 — the profile-alone guard in main -/

/-- With at least two entries in the argument vector, the guard is
decided by the entry at index 1 alone. -/
theorem profileAloneGuard_cons (prog a : String) (rest : List String) :
    profileAloneGuard (prog :: a :: rest) = (a == "--profile" || a == "-p") := by
  simp [profileAloneGuard]

/-- C8: an invocation whose first argument after the program name is
exactly `--profile` or `-p` is rejected before the root command runs,
whatever follows (in particular even when `--discover` appears later in
the vector), while an invocation starting with `--discover` followed by
`--profile` passes the guard and executes the root command. -/
theorem main_profile_alone_guard :
    (∀ prog : String, ∀ rest : List String,
      main (prog :: "--profile" :: rest) = MainOutcome.rejectedProfileAlone) ∧
    (∀ prog : String, ∀ rest : List String,
      main (prog :: "-p" :: rest) = MainOutcome.rejectedProfileAlone) ∧
    (∀ prog : String, ∀ rest : List String,
      main (prog :: "--discover" :: "--profile" :: rest) =
        MainOutcome.executedRootCommand) := by
  refine ⟨fun prog rest => ?_, fun prog rest => ?_, fun prog rest => ?_⟩ <;>
    simp [main, profileAloneGuard_cons]

/-! ## C9 — the menu branch ignores the selected profile -/

/-- C9: in the branch "Select the profile and bucket to expire", on the
path where every call succeeds, the credentials and the session are
created from the global `profileFlag` (whose default is the empty
string), not from the profile the user just selected; only the bucket
choice uses the selected profile, and the abort runs under the session
built from `profileFlag`. -/
theorem menu_branch_uses_global_flag (pf : String) (env : MenuEnv)
    (profile bucket : String)
    (h1 : env.profileChoice = Except.ok profile)
    (h2 : env.credentialsResult pf = Except.ok ())
    (h3 : env.sessionResult pf = Except.ok ())
    (h4 : env.bucketChoice profile = Except.ok bucket) :
    menuExpireOneBranch pf env =
      [MenuCall.getProfileChoice,
       MenuCall.getCredentialsForProfile pf,
       MenuCall.createSessionWithCredentials pf,
       MenuCall.getBucketChoice profile,
       MenuCall.abortInBucket pf bucket] := by
  simp [menuExpireOneBranch, h1, h2, h3, h4]

/-- C9 witness: the flag is left at its empty default while the user
selects the profile "prod" and the bucket "bucket-a"; the credentials,
session and abort all use the empty flag value, and only the bucket
prompt sees "prod". -/
theorem menu_branch_uses_global_flag_witness :
    menuExpireOneBranch profileFlagDefault
        { profileChoice := Except.ok "prod"
          credentialsResult := fun _ => Except.ok ()
          sessionResult := fun _ => Except.ok ()
          bucketChoice := fun _ => Except.ok "bucket-a"
          abortResult := fun _ _ => none } =
      [MenuCall.getProfileChoice,
       MenuCall.getCredentialsForProfile profileFlagDefault,
       MenuCall.createSessionWithCredentials profileFlagDefault,
       MenuCall.getBucketChoice "prod",
       MenuCall.abortInBucket profileFlagDefault "bucket-a"] :=
  menu_branch_uses_global_flag profileFlagDefault _ "prod" "bucket-a"
    rfl rfl rfl rfl

/-! ## C10 — ListS3Buckets and nil bucket names -/

/-- When every entry has a name, the dereference loop returns exactly
those names in order. -/
theorem derefBucketNames_all_some (l : List S3BucketEntry)
    (h : ∀ e ∈ l, e.name.isSome) :
    derefBucketNames l = some (l.map (fun e => e.name.getD "")) := by
  induction l with
  | nil => rfl
  | cons e rest ih =>
    have he := h e (List.mem_cons_self e rest)
    obtain ⟨n, hn⟩ := Option.isSome_iff_exists.mp he
    have hr := ih (fun x hx => h x (List.mem_cons_of_mem e hx))
    simp [derefBucketNames, hn, hr]

/-- C10: for every ListBuckets response whose entries all carry a
non-nil name, ListS3Buckets returns exactly the names of the response
in order (hence with the same length, since a map preserves length);
and the dereference is only safe under that precondition — a response
holding a nil name makes the run panic (modelled `none`). -/
theorem ListS3Buckets_names_in_order :
    (∀ out : ListBucketsOutput, (∀ e ∈ out.buckets, e.name.isSome) →
      ListS3Buckets (Except.ok out) =
        Except.ok (some (out.buckets.map (fun e => e.name.getD "")))) ∧
    ListS3Buckets (Except.ok ⟨[⟨some "alpha"⟩, ⟨none⟩]⟩) = Except.ok none := by
  constructor
  · intro out h
    simp [ListS3Buckets, derefBucketNames_all_some out.buckets h]
  · rfl

/-- C10 witness: the theorem applied to a two-entry response with
names "alpha" and "beta". -/
theorem ListS3Buckets_names_in_order_witness :
    ListS3Buckets (Except.ok ⟨[⟨some "alpha"⟩, ⟨some "beta"⟩]⟩) =
      Except.ok (some ["alpha", "beta"]) := by
  have h := ListS3Buckets_names_in_order.1 ⟨[⟨some "alpha"⟩, ⟨some "beta"⟩]⟩
    (by decide)
  simpa using h

end S3Janitor
